import Mathlib

/-!
Verification of the feature-resolution / CRS-normalization / proximity-analysis
pipeline of this repository (Lab 4 arcpy tool, Lab 4 geopandas variant, Lab 5 tool).

The definitions below are a shallow embedding of the Python sources:
  - src/Labs/Lab4/lab4_arcpy_tool.py   (layer resolver, X/Y field detection,
    idempotent materialization, output stage of main)
  - src/Labs/Lab4/lab4_geopandas.py    (ensure_projected_for_buffer, CRS alignment
    before overlay, output write stage)
  - src/Labs/Lab5/lab5_GISP_tool.py    (clip workflow)
Workspaces are modelled as ordered association lists of layer names (paired with an
abstract Nat payload where layer contents matter); schemas as lists of named, typed
fields; coordinate reference systems as a code together with a geographic flag.
-/

namespace Geog

/-! ## Schemas and X/Y field detection (lab4_arcpy_tool.py lines 48-60) -/

/-- Field types as reported by arcpy.ListFields; the source treats
    Double, Single, Integer and SmallInteger as numeric. -/
inductive FieldType where
  | double
  | single
  | integer
  | smallInteger
  | text
  | oid
  | date
deriving DecidableEq, Repr

/-- Numeric test from line 56: f.type in (Double, Single, Integer, SmallInteger). -/
def FieldType.isNumeric : FieldType → Bool
  | .double => true
  | .single => true
  | .integer => true
  | .smallInteger => true
  | _ => false

/-- A schema field: a name with a declared type. -/
structure Field where
  name : String
  type : FieldType
deriving DecidableEq, Repr

/-- Substring occurrence test on character lists: pat occurs somewhere in s. -/
def occursIn (pat : List Char) : List Char → Bool
  | [] => pat.isEmpty
  | c :: rest => pat.isPrefixOf (c :: rest) || occursIn pat rest

/-- ASCII lowercase of one character, the case folding relevant to the
    identifiers handled by the source. -/
def lowerChar (c : Char) : Char :=
  if 65 ≤ c.toNat ∧ c.toNat ≤ 90 then Char.ofNat (c.toNat + 32) else c

/-- Lowercased character sequence of a name (str.lower in the source). -/
def lowerData (s : String) : List Char := s.data.map lowerChar

/-- The X-like name class of line 52. The source regex (with re.search and re.I) is
    an anchored alternative matching exactly the name x plus unanchored substring
    alternatives lon, long, longitude; the last two are subsumed by the substring lon. -/
def xLike (n : String) : Bool :=
  lowerData n == "x".data || occursIn "lon".data (lowerData n)

/-- The Y-like name class of line 53: exactly y, or the substring lat
    (latitude is subsumed by lat). -/
def yLike (n : String) : Bool :=
  lowerData n == "y".data || occursIn "lat".data (lowerData n)

/-- Embedding of _detect_xy_fields (lines 48-60). Returns none where the source
    returns the pair (None, None). -/
def _detect_xy_fields (fields : List Field) : Option (String × String) :=
  let names := fields.map Field.name
  let xCands := names.filter xLike
  let yCands := names.filter yLike
  if xCands.isEmpty || yCands.isEmpty then
    match (fields.filter fun f => f.type.isNumeric).map Field.name with
    | a :: b :: _ => some (a, b)
    | _ => none
  else
    match xCands.head?, yCands.head? with
    | some x, some y => some (x, y)
    | _, _ => none

/-- Detection as the spec words it: pass 1 returns the first match of each class in
    schema order; only when either class has zero matches does pass 2 fall back to
    the first two numeric fields in schema order. -/
def detect_xy_spec (fields : List Field) : Option (String × String) :=
  let names := fields.map Field.name
  match names.find? xLike, names.find? yLike with
  | some x, some y => some (x, y)
  | _, _ =>
    match (fields.filter fun f => f.type.isNumeric).map Field.name with
    | a :: b :: _ => some (a, b)
    | _ => none

theorem head?_filter {α : Type} (p : α → Bool) (l : List α) :
    (l.filter p).head? = l.find? p := by
  induction l with
  | nil => rfl
  | cons a t ih =>
    by_cases h : p a = true
    · simp [List.filter_cons, List.find?_cons, h]
    · simp only [Bool.not_eq_true] at h
      simp [List.filter_cons, List.find?_cons, h, ih]

theorem detect_eq_spec (fields : List Field) :
    _detect_xy_fields fields = detect_xy_spec fields := by
  unfold _detect_xy_fields detect_xy_spec
  have hx := head?_filter xLike (fields.map Field.name)
  have hy := head?_filter yLike (fields.map Field.name)
  cases hfx : (fields.map Field.name).filter xLike with
  | nil =>
    rw [hfx] at hx
    simp [hfx, ← hx]
  | cons x xs =>
    rw [hfx] at hx
    cases hfy : (fields.map Field.name).filter yLike with
    | nil =>
      rw [hfy] at hy
      simp [hfx, hfy, ← hx, ← hy]
    | cons y ys =>
      rw [hfy] at hy
      simp [hfx, hfy, ← hx, ← hy]

/-! ## Layer resolver (lab4_arcpy_tool.py lines 33-45) -/

/-- Case-insensitive name comparison from line 43: f.lower() == n.lower(). -/
def lcEq (a b : String) : Bool := lowerData a == lowerData b

/-- Exact pass of lines 35-37: first candidate, in candidate order, that exists
    in the workspace under its exact name. -/
def exactPass (ws : List String) : List String → Option String
  | [] => none
  | n :: rest => if ws.contains n then some n else exactPass ws rest

/-- Case-insensitive pass of lines 39-44: for each candidate in order, scan the
    workspace enumeration order for a case-insensitive match and return the
    workspace name of the first hit. -/
def ciPass (ws : List String) : List String → Option String
  | [] => none
  | n :: rest =>
    match ws.find? (fun f => lcEq f n) with
    | some f => some f
    | none => ciPass ws rest

/-- Embedding of _find_candidate_featureclass (lines 33-45): exact pass first,
    case-insensitive pass only on a full miss. -/
def _find_candidate_featureclass (ws names : List String) : Option String :=
  match exactPass ws names with
  | some n => some n
  | none => ciPass ws names

/-- The resolver as the spec words it, stated with the standard searching
    combinators: first exact existence hit in candidate order, else the first
    case-insensitive hit with candidate-list order as tie-break priority. -/
def find_candidate_spec (ws names : List String) : Option String :=
  match names.find? (fun n => ws.contains n) with
  | some n => some n
  | none => names.findSome? (fun n => ws.find? (fun f => lcEq f n))

theorem exactPass_eq_find? (ws names : List String) :
    exactPass ws names = names.find? (fun n => ws.contains n) := by
  induction names with
  | nil => rfl
  | cons n rest ih =>
    simp only [exactPass, List.find?_cons, ih]
    cases h : ws.contains n <;> simp

theorem ciPass_eq_findSome? (ws names : List String) :
    ciPass ws names = names.findSome? (fun n => ws.find? (fun f => lcEq f n)) := by
  induction names with
  | nil => rfl
  | cons n rest ih =>
    cases h : ws.find? (fun f => lcEq f n) with
    | none => simp [ciPass, List.findSome?_cons, h, ih]
    | some f => simp [ciPass, List.findSome?_cons, h]

/-- The garage-layer candidate list of main line 103. -/
def garageCandidates : List String := ["GaragePoints", "garagepoints", "garages", "Garages"]

/-! ## Workspaces and idempotent materialization
    (lab4_arcpy_tool.py lines 78-84 and the inline blocks at 147-151 and 155-159) -/

/-- A destination workspace: ordered association list of layer name to abstract
    layer content. -/
abbrev Workspace := List (String × Nat)

/-- Lookup of a layer by name, in workspace order. -/
def wsGet (ws : Workspace) (n : String) : Option Nat :=
  match ws.find? (fun q => q.1 == n) with
  | some q => some q.2
  | none => none

/-- Existence check on a workspace, as used by arcpy.Exists before each write. -/
def wsHas (ws : Workspace) (n : String) : Bool :=
  (wsGet ws n).isSome

/-- Embedding of the check-then-act materialization pattern shared by
    project_feature (lines 78-84), the buffer block (lines 147-151) and the
    intersect block (lines 155-159): if the named layer exists it is returned
    unchanged, otherwise the producer runs once and its result is persisted.
    The returned Bool records whether the producer was invoked. -/
def materialize (ws : Workspace) (n : String) (producer : Unit → Nat) :
    Workspace × Nat × Bool :=
  match wsGet ws n with
  | some v => (ws, v, false)
  | none =>
    let v := producer ()
    (ws ++ [(n, v)], v, true)

theorem wsGet_append_of_none {ws : Workspace} {n : String} (l : Workspace)
    (h : wsGet ws n = none) : wsGet (ws ++ l) n = wsGet l n := by
  unfold wsGet at *
  cases hf : ws.find? (fun q => q.1 == n) with
  | none => rw [List.find?_append, hf]; rfl
  | some q => rw [hf] at h; exact absurd h (by simp)

theorem wsGet_materialize_self (ws : Workspace) (n : String) (p : Unit → Nat) :
    wsGet (materialize ws n p).1 n = some (materialize ws n p).2.1 := by
  unfold materialize
  cases h : wsGet ws n with
  | some v => simpa using h
  | none =>
    simp only
    rw [wsGet_append_of_none _ h]
    simp [wsGet, List.find?]

theorem wsGet_materialize_other (ws : Workspace) (n : String) (p : Unit → Nat)
    {m : String} (hm : m ≠ n) :
    wsGet (materialize ws n p).1 m = wsGet ws m := by
  unfold materialize
  cases h : wsGet ws n with
  | some v => rfl
  | none =>
    simp only
    cases hg : wsGet ws m with
    | some v =>
      unfold wsGet at hg ⊢
      cases hf : ws.find? (fun q => q.1 == m) with
      | none => rw [hf] at hg; exact absurd hg (by simp)
      | some q => rw [List.find?_append, hf]; rw [hf] at hg; exact hg
    | none =>
      rw [wsGet_append_of_none _ hg]
      have hne : (n == m) = false := beq_eq_false_iff_ne.mpr (Ne.symm hm)
      simp [wsGet, List.find?, hne]

/-! ## Garage-layer resolution step (lab4_arcpy_tool.py lines 102-118) -/

/-- Embedding of the garage identification block of main (lines 102-118): try the
    candidate names via the layer resolver; on a miss, if a CSV is supplied,
    detect X/Y fields and synthesize the GaragePoints layer into the source
    workspace (XYTableToPoint, line 115); otherwise fail. The source workspace is
    modelled by its ordered list of layer names. -/
def resolveGarage (ws : List String) (csv : Option (List Field)) :
    Except String (List String × String) :=
  match _find_candidate_featureclass ws garageCandidates with
  | some n => .ok (ws, n)
  | none =>
    match csv with
    | some fields =>
      match _detect_xy_fields fields with
      | some _ => .ok (ws ++ ["GaragePoints"], "GaragePoints")
      | none => .error "Unable to detect X/Y fields in CSV. Please provide CSV with X/Y or Lon/Lat fields."
    | none => .error "Could not find garage point feature class in GDB and no valid CSV provided."

theorem exact_miss {ws names : List String}
    (h : _find_candidate_featureclass ws names = none) :
    ∀ n ∈ names, ws.contains n = false := by
  intro n hn
  unfold _find_candidate_featureclass at h
  cases he : exactPass ws names with
  | some m => rw [he] at h; exact absurd h (by simp)
  | none =>
    rw [exactPass_eq_find?] at he
    have := List.find?_eq_none.mp he n hn
    simpa using this

/-! ## Coordinate reference systems and the geopandas resolver
    (lab4_geopandas.py lines 86-102) -/

/-- A coordinate reference system: an authority code and whether its units are
    angular (geographic) rather than linear. -/
structure GCRS where
  code : Nat
  geographic : Bool
deriving DecidableEq, Repr

/-- A GeoDataFrame abstracted to what ensure_projected_for_buffer inspects: its
    CRS (possibly absent) and whether it is empty (degenerate geometry). -/
structure GeoFrame where
  crs : Option GCRS
  isEmpty : Bool
deriving DecidableEq, Repr

/-- The CRS chosen inside the try/except of lines 96-100: the estimated UTM zone
    CRS when estimation succeeds (UTM zone systems are projected, hence linear
    units), else the EPSG:3857 Web Mercator fallback (meters). The estimation
    outcome is passed in as an oracle. -/
def utmOr3857 : Option Nat → GCRS
  | some z => ⟨z, false⟩
  | none => ⟨3857, false⟩

/-- Embedding of ensure_projected_for_buffer (lines 86-102): empty frames are
    returned unchanged (lines 90-91); a nonempty frame with a geographic CRS is
    reprojected (to_crs, line 101, modelled as replacing the frame CRS) to the
    UTM estimate or the Web Mercator fallback; an already projected frame is
    returned unchanged. A nonempty frame with an absent CRS reaches to_crs at
    line 101 with naive geometries, where geopandas raises ValueError and
    nothing catches it: that path is an error, not a successful projection. -/
def ensure_projected_for_buffer (zone : Option Nat) (gdf : GeoFrame) :
    Except String GeoFrame :=
  if gdf.isEmpty then .ok gdf
  else
    match gdf.crs with
    | none => .error "Cannot transform naive geometries."
    | some c =>
      if c.geographic then .ok { gdf with crs := some (utmOr3857 zone) } else .ok gdf

/-! ## CRS alignment before the overlay (lab4_geopandas.py lines 162-214) -/

/-- The target-CRS alignment of lines 162-180: the garage CRS (else the
    structures CRS) becomes the target and both frames are reprojected to it
    when they differ. -/
def alignTarget (garage structures : GeoFrame) : GeoFrame × GeoFrame :=
  match garage.crs with
  | some t =>
    (garage, if structures.crs = some t then structures else { structures with crs := some t })
  | none =>
    match structures.crs with
    | some t =>
      (if garage.crs = some t then garage else { garage with crs := some t }, structures)
    | none => (garage, structures)

/-- Embedding of lines 162-214 for the run in which both layers were read:
    after target alignment, garage_proj is the buffer-safe projection of the
    garage frame and structures_proj is the structures frame reprojected to
    garage_proj.crs (line 196); buffering (lines 202-208) keeps garage_proj
    and happens only when it is nonempty; the overlay (lines 210-212) runs only
    when the buffer exists and structures_proj is nonempty, and its operand pair
    is returned. When ensure_projected_for_buffer raises (naive nonempty garage
    frame), the uncaught exception aborts main before any overlay, so the
    overlay slot is none and the first two components are the aligned frames
    as they stood when the run died. -/
def gpdOverlayOperands (zone : Option Nat) (garage structures : GeoFrame) :
    GeoFrame × GeoFrame × Option (GeoFrame × GeoFrame) :=
  let aligned := alignTarget garage structures
  match ensure_projected_for_buffer zone aligned.1 with
  | .error _ => (aligned.1, aligned.2, none)
  | .ok gproj =>
    let sproj := { aligned.2 with crs := gproj.crs }
    (gproj, sproj,
      if gproj.isEmpty then none
      else if sproj.isEmpty then none
      else some (sproj, gproj))

/-! ## Output naming and write stages -/

/-- Python int() truncation toward zero on a rational buffer distance. -/
def pyInt (q : ℚ) : Int := Int.tdiv q.num (q.den : Int)

/-- Buffer layer name of main line 145: Garage_Buffer_ followed by the integer
    part of the distance and the letter m. -/
def bufferName (d : ℚ) : String :=
  String.append "Garage_Buffer_" (toString (pyInt d) ++ "m")

/-- Embedding of the arcpy output stage of main (lines 133-162): the four
    check-then-act writes into the destination workspace, each through the
    idempotent materialization pattern. Producers are abstract. -/
def runOutputStage (outWs : Workspace) (d : ℚ)
    (p1 p2 p3 p4 : Unit → Nat) : Workspace :=
  (materialize
    (materialize
      (materialize
        (materialize outWs "GaragePoints_PRJ" p1).1
        "Structures_PRJ" p2).1
      (bufferName d) p3).1
    "Garage_Structures_Intersect" p4).1

/-- Embedding of the geopandas write stage (lab4_geopandas.py lines 216-242):
    each of the three analysis layers is written when its frame is present, but
    the overlay layer is written only when the intersect frame is non-empty
    (line 227). The list of written layer names is returned. -/
def gpdWrittenLayers (hasGarage hasStructures hasBuffer intersectEmpty : Bool) :
    List String :=
  (if hasGarage then ["GaragePoints_PRJ"] else []) ++
  (if hasStructures then ["Structures_PRJ"] else []) ++
  (if hasBuffer then ["Garage_Buffer_150m"] else []) ++
  (if intersectEmpty then [] else ["Garage_Structures_Intersect"])

/-! ## Overlay geometry model -/

/-- A planar geometry as a set of rational points. -/
abbrev Geom := Set (ℚ × ℚ)

/-- A feature carrying a geometry. -/
structure GFeature where
  geom : Geom

/-- The combined geometry of a layer: the union of its feature geometries. -/
def layerGeom (l : List GFeature) : Geom := fun p => ∃ f ∈ l, p ∈ f.geom

/-- Modelled from the spec: the geometry kernel behind arcpy.analysis.Clip
    (lab5_GISP_tool.py line 133) is not part of this repository. Clip keeps the
    portions of each input feature that fall inside the clipping geometry. -/
def overlayClip (a : List GFeature) (b : Geom) : List GFeature :=
  a.map fun f => ⟨f.geom ∩ b⟩

/-- Modelled from the spec: the geometry kernel behind arcpy.analysis.Intersect
    (lab4_arcpy_tool.py line 156) and gpd.overlay with intersection mode
    (lab4_geopandas.py line 212) is not part of this repository. Intersection
    keeps only the geometric overlap between features of the two layers. -/
def overlayIntersection (a b : List GFeature) : List GFeature :=
  a.flatMap fun fa => b.map fun fb => ⟨fa.geom ∩ fb.geom⟩

/-! ## Helper lemmas -/

theorem materialize_of_found {ws : Workspace} {n : String} {v : Nat} (p : Unit → Nat)
    (h : wsGet ws n = some v) : materialize ws n p = (ws, v, false) := by
  unfold materialize
  rw [h]

theorem utmOr3857_projected (z : Option Nat) : (utmOr3857 z).geographic = false := by
  cases z <;> rfl

theorem take_len_append {α : Type} (l₁ l₂ : List α) :
    (l₁ ++ l₂).take l₁.length = l₁ :=
  List.take_left l₁ l₂

theorem append_ne_of_take {a s t : String}
    (h : t.data.take a.data.length ≠ a.data) : String.append a s ≠ t := by
  intro he
  apply h
  rw [← he]
  exact take_len_append a.data s.data

theorem bufferName_ne_garagePrj (d : ℚ) : bufferName d ≠ "GaragePoints_PRJ" :=
  append_ne_of_take (by decide)

theorem bufferName_ne_structuresPrj (d : ℚ) : bufferName d ≠ "Structures_PRJ" :=
  append_ne_of_take (by decide)

theorem bufferName_ne_intersect (d : ℚ) : bufferName d ≠ "Garage_Structures_Intersect" :=
  append_ne_of_take (by decide)

theorem wsHas_materialize_self (ws : Workspace) (n : String) (p : Unit → Nat) :
    wsHas (materialize ws n p).1 n = true := by
  unfold wsHas
  rw [wsGet_materialize_self]
  rfl

theorem wsHas_materialize_mono (ws : Workspace) (n : String) (p : Unit → Nat)
    {m : String} (h : wsHas ws m = true) :
    wsHas (materialize ws n p).1 m = true := by
  by_cases hm : m = n
  · subst hm
    exact wsHas_materialize_self ws m p
  · unfold wsHas at *
    rw [wsGet_materialize_other ws n p hm]
    exact h

/-! ## Claims -/

/-- C1: invoking the output-writer materialization twice with identical
destination and layer name invokes the producer at most once (the second call
never invokes it) and returns identical output both times; when the named layer
already exists in the destination, it is returned unchanged and the producer is
not invoked. -/
theorem output_writer_idempotent (ws : Workspace) (n : String) (p : Unit → Nat) :
    (materialize (materialize ws n p).1 n p).2.1 = (materialize ws n p).2.1 ∧
    (materialize (materialize ws n p).1 n p).2.2 = false ∧
    (materialize (materialize ws n p).1 n p).1 = (materialize ws n p).1 ∧
    (∀ v, wsGet ws n = some v → materialize ws n p = (ws, v, false)) := by
  have h2 := materialize_of_found p (wsGet_materialize_self ws n p)
  exact ⟨by rw [h2], by rw [h2], by rw [h2], fun v hv => materialize_of_found p hv⟩

/-- Witness for C1: a destination that already contains the layer returns the
stored layer unchanged without invoking the producer. -/
theorem output_writer_idempotent_w :
    materialize [("Existing", 5)] "Existing" (fun _ => 9) = ([("Existing", 5)], 5, false) :=
  (output_writer_idempotent [("Existing", 5)] "Existing" (fun _ => 9)).2.2.2 5 (by decide)

/-- C10: the buffer layer name is built from the integer part of the distance,
so distances 150.2 and 150.9 map to the same name Garage_Buffer_150m, and a
second run with such a distance finds the existing layer and returns the
earlier buffer unchanged without recomputation. -/
theorem buffer_name_collision :
    (∀ d1 d2 : ℚ, pyInt d1 = pyInt d2 → bufferName d1 = bufferName d2) ∧
    bufferName (751/5 : ℚ) = "Garage_Buffer_150m" ∧
    bufferName (1509/10 : ℚ) = "Garage_Buffer_150m" ∧
    (∀ (ws : Workspace) (p : Unit → Nat) (v : Nat),
      wsGet ws (bufferName (751/5 : ℚ)) = some v →
      materialize ws (bufferName (1509/10 : ℚ)) p = (ws, v, false)) := by
  have e1 : bufferName (751/5 : ℚ) = "Garage_Buffer_150m" := by
    have h1 : (751/5 : ℚ).num = 751 := by norm_num
    have h2 : (751/5 : ℚ).den = 5 := by norm_num
    unfold bufferName pyInt
    rw [h1, h2]
    decide
  have e2 : bufferName (1509/10 : ℚ) = "Garage_Buffer_150m" := by
    have h1 : (1509/10 : ℚ).num = 1509 := by norm_num
    have h2 : (1509/10 : ℚ).den = 10 := by norm_num
    unfold bufferName pyInt
    rw [h1, h2]
    decide
  refine ⟨fun d1 d2 h => by unfold bufferName; rw [h], e1, e2, fun ws p v hv => ?_⟩
  apply materialize_of_found
  rw [e2, ← e1]
  exact hv

/-- Witness for C10: with the 150.2-meter buffer layer stored under
Garage_Buffer_150m, a run at 150.9 meters returns it unchanged without
invoking the producer. -/
theorem buffer_name_collision_w :
    materialize [("Garage_Buffer_150m", 42)] (bufferName (1509/10 : ℚ)) (fun _ => 7) =
      ([("Garage_Buffer_150m", 42)], 42, false) := by
  apply buffer_name_collision.2.2.2 [("Garage_Buffer_150m", 42)] (fun _ => 7) 42
  rw [buffer_name_collision.2.1]
  decide

/-- C5: the layer resolver first tries an exact existence check for each
candidate in order, and only on a full miss enumerates the workspace and
compares names case-insensitively with candidate-list order as tie-break
priority; stated as extensional equality with the spec-worded search, together
with the case-mismatch scenario from the spec. -/
theorem layer_resolver_matches_spec :
    (∀ ws names : List String,
      _find_candidate_featureclass ws names = find_candidate_spec ws names) ∧
    _find_candidate_featureclass ["GARAGEPOINTS", "Structures"] garageCandidates =
      some "GARAGEPOINTS" ∧
    _find_candidate_featureclass ["garagepoints", "Structures"] garageCandidates =
      some "garagepoints" := by
  refine ⟨fun ws names => ?_, by decide, by decide⟩
  unfold _find_candidate_featureclass find_candidate_spec
  rw [exactPass_eq_find?, ciPass_eq_findSome?]

/-- C4: X/Y field detection pattern-matches names against the X-like and Y-like
classes, returning the first match of each class in schema order, and falls back
to the first two numeric fields in schema order only when either class has zero
matches; the four example schemas of the claim behave as stated. -/
theorem detect_xy_matches_spec :
    (∀ fields : List Field, _detect_xy_fields fields = detect_xy_spec fields) ∧
    _detect_xy_fields
      [⟨"id", .integer⟩, ⟨"capacity", .integer⟩, ⟨"X", .double⟩, ⟨"Y", .double⟩] =
      some ("X", "Y") ∧
    _detect_xy_fields [⟨"id", .text⟩, ⟨"lon", .double⟩, ⟨"lat", .double⟩] =
      some ("lon", "lat") ∧
    _detect_xy_fields [⟨"id", .text⟩, ⟨"a", .double⟩, ⟨"b", .double⟩] =
      some ("a", "b") ∧
    _detect_xy_fields [⟨"id", .text⟩, ⟨"name", .text⟩] = none :=
  ⟨detect_eq_spec, by decide, by decide, by decide, by decide⟩

/-- C7: detection signals Ambiguous (returns no pair) exactly when fewer than
two numeric fields exist and the name passes produced no usable match (either
class empty), and in the pipeline this propagates as a fatal resolution
failure: the garage resolution aborts with an error instead of synthesizing a
layer. -/
theorem xy_ambiguous_fatal (fields : List Field) (ws : List String) :
    (_detect_xy_fields fields = none ↔
      ((fields.filter fun f => f.type.isNumeric).length < 2 ∧
       ((fields.map Field.name).filter xLike = [] ∨
        (fields.map Field.name).filter yLike = []))) ∧
    (_find_candidate_featureclass ws garageCandidates = none →
      _detect_xy_fields fields = none →
      resolveGarage ws (some fields) =
        .error "Unable to detect X/Y fields in CSV. Please provide CSV with X/Y or Lon/Lat fields.") := by
  constructor
  · unfold _detect_xy_fields
    have hlen : ((fields.filter fun f => f.type.isNumeric).map Field.name).length
        = (fields.filter fun f => f.type.isNumeric).length := List.length_map _ _
    cases hfx : (fields.map Field.name).filter xLike with
    | nil =>
      simp only [hfx, List.isEmpty_nil, Bool.true_or, if_true]
      cases hnum : (fields.filter fun f => f.type.isNumeric).map Field.name with
      | nil =>
        rw [hnum] at hlen
        simp [← hlen]
      | cons a t =>
        cases t with
        | nil =>
          rw [hnum] at hlen
          simp [← hlen]
        | cons b t2 =>
          rw [hnum] at hlen
          simp [← hlen]
    | cons x xs =>
      cases hfy : (fields.map Field.name).filter yLike with
      | nil =>
        simp only [hfx, hfy, List.isEmpty_nil, List.isEmpty_cons, Bool.or_true, if_true]
        cases hnum : (fields.filter fun f => f.type.isNumeric).map Field.name with
        | nil =>
          rw [hnum] at hlen
          simp [← hlen]
        | cons a t =>
          cases t with
          | nil =>
            rw [hnum] at hlen
            simp [← hlen]
          | cons b t2 =>
            rw [hnum] at hlen
            simp [← hlen]
      | cons y ys =>
        simp [hfx, hfy]
  · intro h1 h2
    unfold resolveGarage
    rw [h1]
    simp [h2]

/-- Witness for C7: a schema with no coordinate-like names and no numeric
fields makes garage resolution fail with the detection error. -/
theorem xy_ambiguous_fatal_w :
    resolveGarage ["Structures"]
        (some [⟨"id", FieldType.text⟩, ⟨"name", FieldType.text⟩]) =
      .error "Unable to detect X/Y fields in CSV. Please provide CSV with X/Y or Lon/Lat fields." :=
  (xy_ambiguous_fatal [⟨"id", .text⟩, ⟨"name", .text⟩] ["Structures"]).2
    (by decide) (by decide)

/-- C8: garage resolution never mutates the source workspace except in the
tabular-fallback case, where it appends exactly one new layer named
GaragePoints that was not previously present and changes nothing else. -/
theorem layer_resolver_frame (ws : List String) (csv : Option (List Field))
    (ws2 : List String) (n : String)
    (h : resolveGarage ws csv = .ok (ws2, n)) :
    ws2 = ws ∨ (ws2 = ws ++ ["GaragePoints"] ∧ ws.contains "GaragePoints" = false) := by
  unfold resolveGarage at h
  cases hf : _find_candidate_featureclass ws garageCandidates with
  | some m =>
    simp only [hf, Except.ok.injEq, Prod.mk.injEq] at h
    exact Or.inl h.1.symm
  | none =>
    cases csv with
    | none =>
      simp only [hf] at h
      exact Except.noConfusion h
    | some fields =>
      cases hd : _detect_xy_fields fields with
      | some xy =>
        simp only [hf, hd, Except.ok.injEq, Prod.mk.injEq] at h
        refine Or.inr ⟨h.1.symm, ?_⟩
        exact exact_miss hf "GaragePoints" (by decide)
      | none =>
        simp only [hf, hd] at h
        exact Except.noConfusion h

/-- Witness for C8: with no garage-named layer present and a usable CSV schema,
resolution appends exactly the one new GaragePoints layer. -/
theorem layer_resolver_frame_w :
    (["Structures", "GaragePoints"] : List String) = ["Structures"] ∨
    ((["Structures", "GaragePoints"] : List String) = ["Structures"] ++ ["GaragePoints"] ∧
     (["Structures"] : List String).contains "GaragePoints" = false) :=
  layer_resolver_frame ["Structures"] (some [⟨"lon", .double⟩, ⟨"lat", .double⟩])
    ["Structures", "GaragePoints"] "GaragePoints" rfl

/-- C2 counterexample: a degenerate (empty-geometry) frame whose CRS is the
geographic EPSG:4326 is returned unchanged by ensure_projected_for_buffer, so
the returned CRS has angular units, contradicting the claim that the resolver
returns a linear-unit CRS for degenerate inputs as well. -/
theorem crs_resolver_cex :
    ensure_projected_for_buffer none ⟨some ⟨4326, true⟩, true⟩ = .ok ⟨some ⟨4326, true⟩, true⟩ ∧
    GCRS.geographic ⟨4326, true⟩ = true :=
  ⟨rfl, rfl⟩

/-- C2 (amended): for every nonempty input geometry collection whose CRS is
present - geographic or already projected - the coordinate reference resolver
succeeds and returns a frame carrying a CRS with linear (metric) units; empty
(degenerate) inputs are returned unchanged, so the linearity guarantee does not
extend to them. (A nonempty input with an absent CRS makes the underlying
reprojection raise, so the resolver returns no CRS at all on that path.) -/
theorem crs_resolver_linear (zone : Option Nat) (g : GeoFrame) :
    (g.isEmpty = false → ∀ c0, g.crs = some c0 →
      ∀ gout, ensure_projected_for_buffer zone g = .ok gout →
        ∀ c, gout.crs = some c → c.geographic = false) ∧
    (g.isEmpty = false → ∀ c0, g.crs = some c0 →
      ∀ gout, ensure_projected_for_buffer zone g = .ok gout → gout.crs.isSome = true) ∧
    (g.isEmpty = false → ∀ c0, g.crs = some c0 →
      (ensure_projected_for_buffer zone g).isOk = true) ∧
    (g.isEmpty = true → ensure_projected_for_buffer zone g = .ok g) := by
  obtain ⟨gcrs, gempty⟩ := g
  cases gempty with
  | true =>
    refine ⟨?_, ?_, ?_, ?_⟩
    · intro hE
      exact absurd hE (by simp)
    · intro hE
      exact absurd hE (by simp)
    · intro hE
      exact absurd hE (by simp)
    · intro _
      rfl
  | false =>
    cases gcrs with
    | none =>
      refine ⟨?_, ?_, ?_, ?_⟩
      · intro _ c0 hc0
        exact absurd hc0 (by simp)
      · intro _ c0 hc0
        exact absurd hc0 (by simp)
      · intro _ c0 hc0
        exact absurd hc0 (by simp)
      · intro hc
        exact absurd hc (by simp)
    | some c1 =>
      refine ⟨?_, ?_, ?_, fun hc => absurd hc (by simp)⟩
      · intro _ c0 _ gout hok c hc
        by_cases hg : c1.geographic = true
        · simp [ensure_projected_for_buffer, hg] at hok
          rw [← hok] at hc
          simp at hc
          rw [← hc]
          exact utmOr3857_projected zone
        · simp [ensure_projected_for_buffer, hg] at hok
          rw [← hok] at hc
          simp at hc
          rw [← hc]
          simpa using hg
      · intro _ c0 _ gout hok
        by_cases hg : c1.geographic = true
        · simp [ensure_projected_for_buffer, hg] at hok
          rw [← hok]
          simp
        · simp [ensure_projected_for_buffer, hg] at hok
          rw [← hok]
          simp
      · intro _ c0 _
        by_cases hg : c1.geographic = true
        · simp only [ensure_projected_for_buffer, hg]
          rfl
        · simp [ensure_projected_for_buffer, hg]
          rfl

/-- Witness for C2: a nonempty frame in geographic EPSG:4326 comes back
successfully in the metric Web Mercator fallback, whose units are linear. -/
theorem crs_resolver_linear_w : GCRS.geographic ⟨3857, false⟩ = false :=
  (crs_resolver_linear none ⟨some ⟨4326, true⟩, false⟩).1 rfl ⟨4326, true⟩ rfl
    ⟨some ⟨3857, false⟩, false⟩ rfl ⟨3857, false⟩ rfl

/-- C3 counterexample: resolved inputs with mismatched CRS (projected EPSG:3857
garage, geographic EPSG:4326 structures) do not make the pipeline abort: the
overlay still runs, and its structures operand has been silently reprojected to
the garage CRS beforehand. -/
theorem overlay_crs_cex :
    (⟨some ⟨4326, true⟩, false⟩ : GeoFrame).crs ≠ (⟨some ⟨3857, false⟩, false⟩ : GeoFrame).crs ∧
    (gpdOverlayOperands none ⟨some ⟨3857, false⟩, false⟩ ⟨some ⟨4326, true⟩, false⟩).2.2 =
      some (⟨some ⟨3857, false⟩, false⟩, ⟨some ⟨3857, false⟩, false⟩) := by
  decide

/-- C3 (amended): whenever the geopandas pipeline invokes the overlay, its two
operands carry an identical coordinate reference system, because the structures
layer is reprojected to the garage projection CRS before the overlay; a CRS
mismatch between the resolved inputs is silently corrected rather than fatal. -/
theorem overlay_operands_aligned (zone : Option Nat) (garage structures : GeoFrame)
    (a b : GeoFrame)
    (h : (gpdOverlayOperands zone garage structures).2.2 = some (a, b)) :
    a.crs = b.crs := by
  unfold gpdOverlayOperands at h
  simp only at h
  cases he : ensure_projected_for_buffer zone (alignTarget garage structures).1 with
  | error e =>
    simp only [he] at h
    exact Option.noConfusion h
  | ok gproj =>
    simp only [he] at h
    by_cases h1 : gproj.isEmpty = true
    · rw [if_pos h1] at h
      cases h
    · rw [if_neg h1] at h
      by_cases h2 : (({ (alignTarget garage structures).2 with
          crs := gproj.crs } : GeoFrame)).isEmpty = true
      · rw [if_pos h2] at h
        cases h
      · rw [if_neg h2] at h
        simp only [Option.some.injEq, Prod.mk.injEq] at h
        rw [← h.1, ← h.2]

/-- Witness for C3 (amended): at the mismatched concrete inputs the overlay runs
and both of its operands carry EPSG:3857. -/
theorem overlay_operands_aligned_w :
    (⟨some ⟨3857, false⟩, false⟩ : GeoFrame).crs = (⟨some ⟨3857, false⟩, false⟩ : GeoFrame).crs :=
  overlay_operands_aligned none ⟨some ⟨3857, false⟩, false⟩ ⟨some ⟨4326, true⟩, false⟩
    ⟨some ⟨3857, false⟩, false⟩ ⟨some ⟨3857, false⟩, false⟩ (by decide)

/-- C6 counterexample: a successful geopandas run whose overlay result has zero
features writes only three layers into the destination, not four — the overlay
layer is skipped when empty (lab4_geopandas.py line 227). -/
theorem four_layers_cex :
    gpdWrittenLayers true true true true =
      ["GaragePoints_PRJ", "Structures_PRJ", "Garage_Buffer_150m"] ∧
    (gpdWrittenLayers true true true true).length = 3 := by
  decide

/-- C6 (amended): after a successful arcpy run the four named layers —
reprojected points, reprojected polygons, distance-encoded buffer, overlay —
are all present in the destination workspace, and when the destination started
empty they are exactly its contents in write order; the geopandas variant
writes the overlay layer only when it is non-empty, so a zero-feature overlay
leaves three layers there. -/
theorem four_layers (outWs : Workspace) (d : ℚ) (p1 p2 p3 p4 : Unit → Nat) :
    wsHas (runOutputStage outWs d p1 p2 p3 p4) "GaragePoints_PRJ" = true ∧
    wsHas (runOutputStage outWs d p1 p2 p3 p4) "Structures_PRJ" = true ∧
    wsHas (runOutputStage outWs d p1 p2 p3 p4) (bufferName d) = true ∧
    wsHas (runOutputStage outWs d p1 p2 p3 p4) "Garage_Structures_Intersect" = true ∧
    (runOutputStage [] d p1 p2 p3 p4).map Prod.fst =
      ["GaragePoints_PRJ", "Structures_PRJ", bufferName d, "Garage_Structures_Intersect"] ∧
    gpdWrittenLayers true true true false =
      ["GaragePoints_PRJ", "Structures_PRJ", "Garage_Buffer_150m",
       "Garage_Structures_Intersect"] ∧
    gpdWrittenLayers true true true true =
      ["GaragePoints_PRJ", "Structures_PRJ", "Garage_Buffer_150m"] := by
  have hb1 : ("GaragePoints_PRJ" == bufferName d) = false :=
    beq_eq_false_iff_ne.mpr (Ne.symm (bufferName_ne_garagePrj d))
  have hb2 : ("Structures_PRJ" == bufferName d) = false :=
    beq_eq_false_iff_ne.mpr (Ne.symm (bufferName_ne_structuresPrj d))
  have hb3 : (bufferName d == "Garage_Structures_Intersect") = false :=
    beq_eq_false_iff_ne.mpr (bufferName_ne_intersect d)
  refine ⟨?_, ?_, ?_, ?_, ?_, by decide, by decide⟩
  · unfold runOutputStage
    apply wsHas_materialize_mono
    apply wsHas_materialize_mono
    apply wsHas_materialize_mono
    exact wsHas_materialize_self _ _ _
  · unfold runOutputStage
    apply wsHas_materialize_mono
    apply wsHas_materialize_mono
    exact wsHas_materialize_self _ _ _
  · unfold runOutputStage
    apply wsHas_materialize_mono
    exact wsHas_materialize_self _ _ _
  · unfold runOutputStage
    exact wsHas_materialize_self _ _ _
  · have s1 : materialize ([] : Workspace) "GaragePoints_PRJ" p1 =
        ([("GaragePoints_PRJ", p1 ())], p1 (), true) := rfl
    have s2 : materialize [("GaragePoints_PRJ", p1 ())] "Structures_PRJ" p2 =
        ([("GaragePoints_PRJ", p1 ()), ("Structures_PRJ", p2 ())], p2 (), true) := rfl
    have s3get : wsGet [("GaragePoints_PRJ", p1 ()), ("Structures_PRJ", p2 ())]
        (bufferName d) = none := by
      simp [wsGet, List.find?_cons, hb1, hb2]
    have s3 : materialize [("GaragePoints_PRJ", p1 ()), ("Structures_PRJ", p2 ())]
        (bufferName d) p3 =
        ([("GaragePoints_PRJ", p1 ()), ("Structures_PRJ", p2 ()), (bufferName d, p3 ())],
         p3 (), true) := by
      unfold materialize
      rw [s3get]
      rfl
    have s4get : wsGet [("GaragePoints_PRJ", p1 ()), ("Structures_PRJ", p2 ()),
        (bufferName d, p3 ())] "Garage_Structures_Intersect" = none := by
      simp [wsGet, List.find?_cons, hb3]
    have s4 : materialize [("GaragePoints_PRJ", p1 ()), ("Structures_PRJ", p2 ()),
        (bufferName d, p3 ())] "Garage_Structures_Intersect" p4 =
        ([("GaragePoints_PRJ", p1 ()), ("Structures_PRJ", p2 ()), (bufferName d, p3 ()),
          ("Garage_Structures_Intersect", p4 ())], p4 (), true) := by
      unfold materialize
      rw [s4get]
      rfl
    unfold runOutputStage
    simp only [s1, s2, s3, s4]
    simp

/-- C9: every output feature of a clip-mode overlay has geometry contained in
the clipping geometry, and every output feature of an intersection-mode overlay
has geometry contained in the combined geometry of each input layer. -/
theorem overlay_subset :
    (∀ (a : List GFeature) (b : Geom), ∀ f ∈ overlayClip a b, f.geom ⊆ b) ∧
    (∀ a b : List GFeature, ∀ f ∈ overlayIntersection a b,
      f.geom ⊆ layerGeom a ∧ f.geom ⊆ layerGeom b) := by
  constructor
  · intro a b f hf
    obtain ⟨fa, hfa, rfl⟩ := List.mem_map.mp hf
    exact Set.inter_subset_right
  · intro a b f hf
    simp only [overlayIntersection, List.mem_flatMap, List.mem_map] at hf
    obtain ⟨fa, hfa, fb, hfb, rfl⟩ := hf
    constructor
    · intro p hp
      exact ⟨fa, hfa, hp.1⟩
    · intro p hp
      exact ⟨fb, hfb, hp.2⟩

/-- Concrete clipping region used by the C9 witness. -/
def cexClipRegion : Geom := fun p => p.1 ≤ 1

/-- Witness for C9: clipping a universal-geometry feature against a concrete
region yields a feature contained in that region. -/
theorem overlay_subset_w :
    GFeature.geom ⟨Set.univ ∩ cexClipRegion⟩ ⊆ cexClipRegion :=
  overlay_subset.1 [⟨Set.univ⟩] cexClipRegion ⟨Set.univ ∩ cexClipRegion⟩
    (by simp [overlayClip])

end Geog
